import Mathlib

/-!
Shallow embedding of `src/tg_go_to_frame.py`, a tkinter control panel that
edits the "current frame" parameter of a Terragen project over RPC.

The mutable program state is the quadruple of tkinter StringVars
(`current_frame_var`, `current_frame_at_startup`, `start_frame_var`,
`end_frame_var`) together with the global `ERROR_SHOWN` flag.  Every event
handler becomes a pure function `State → State × List Output`, where
`Output` records the observable effects: warning popups, gateway calls and
the `print` in `on_mouse_wheel`.  Gateway calls are synchronous and may fail
with one of four exception kinds; a handler that performs such a call is
parametrised by the call's result.

Python's `int(value)` (base 10, `str` argument) accepts the string after
stripping leading and trailing whitespace, then an optional sign, then a
nonempty run of digits in which single underscores may stand between two
digits.  `pythonParseInt?` models this for ASCII text.  `str(intValue)`
(used implicitly by `StringVar.set` on ints and explicitly in
`on_mouse_wheel`) is modelled by `pyStr`.
-/

/-- The four exception kinds caught around Terragen RPC calls:
`ConnectionError`, `TimeoutError`, `tg.ReplyError`, `tg.ApiError`. -/
inductive GatewayFailure
  | connectionFailure
  | timeoutFailure
  | replyFailure
  | apiFailure
deriving DecidableEq, Repr

/-- Observable effects of a handler: the "Invalid input" popup raised by
`is_valid_integer`, the per-failure-kind popup raised around gateway calls,
the remote `set_param` / `get_param` calls themselves, and the
`print("Invalid input")` in `on_mouse_wheel`. -/
inductive Output
  | warnInvalidInput
  | warnGateway (kind : GatewayFailure)
  | setParam (name : String) (value : Int)
  | getParam (name : String)
  | printInvalid
deriving DecidableEq, Repr

def Output.isWarnInvalid : Output → Bool
  | .warnInvalidInput => true
  | _ => false

def Output.isWarnGateway : Output → Bool
  | .warnGateway _ => true
  | _ => false

def Output.isSetParam : Output → Bool
  | .setParam _ _ => true
  | _ => false

def Output.isRemote : Output → Bool
  | .setParam _ _ => true
  | .getParam _ => true
  | _ => false

def countWarnInvalid (outs : List Output) : Nat :=
  (outs.filter Output.isWarnInvalid).length

def countWarnGateway (outs : List Output) : Nat :=
  (outs.filter Output.isWarnGateway).length

def countSetParam (outs : List Output) : Nat :=
  (outs.filter Output.isSetParam).length

/-- The ASCII whitespace characters stripped by Python's `int` before
parsing: exactly 0x09-0x0D and 0x20.  (CPython rejects the other ASCII
control characters here, including 0x1C-0x1F, even though `str.isspace`
accepts them; it additionally strips non-ASCII Unicode whitespace such as
NBSP, which lies outside this embedding's ASCII fragment.) -/
def isPyWs (c : Char) : Bool :=
  c = ' ' || c = '\t' || c = '\n' || c = '\r' || c = '\x0b' || c = '\x0c'

/-- Strip leading and trailing whitespace, as Python's `int` does. -/
def pythonStrip (cs : List Char) : List Char :=
  ((cs.dropWhile isPyWs).reverse.dropWhile isPyWs).reverse

/-- Digit tail of a Python int literal, after the first digit was consumed
into `acc`.  `afterUnd` records that the previous character was an
underscore, which must be followed by a digit and may not repeat. -/
def pyDigitsAux : List Char → Bool → Nat → Option Nat
  | [], afterUnd, acc => if afterUnd then none else some acc
  | c :: rest, afterUnd, acc =>
    if c.isDigit then pyDigitsAux rest false (acc * 10 + (c.toNat - 48))
    else if c = '_' && !afterUnd then pyDigitsAux rest true acc
    else none

/-- A nonempty digit run with single underscores between digits, evaluated
to its value. -/
def pyDigits : List Char → Option Nat
  | [] => none
  | c :: rest => if c.isDigit then pyDigitsAux rest false (c.toNat - 48) else none

/-- Python's `int(value)` for `str` input in base 10, on its ASCII
fragment: strip surrounding whitespace, optional sign, digits with single
underscores between them.  On ASCII strings this is exact (checked
differentially against CPython, exhaustively for short strings); CPython
additionally accepts Unicode decimal digits and Unicode whitespace in
non-ASCII strings (`int("٥") = 5`, `int("\xa05") = 5`), which this model
maps to `none`, so only statements restricted to ASCII text (or using the
parser uniformly on both sides) transfer to the program verbatim. -/
def pythonParseInt? (s : String) : Option Int :=
  match pythonStrip s.toList with
  | [] => none
  | c :: rest =>
    if c = '+' then (pyDigits rest).map Int.ofNat
    else if c = '-' then (pyDigits rest).map (fun n => -Int.ofNat n)
    else (pyDigits (c :: rest)).map Int.ofNat

/-- The decimal digit character for `d % 10`. -/
def decDigit (d : Nat) : Char :=
  match d with
  | 0 => '0' | 1 => '1' | 2 => '2' | 3 => '3' | 4 => '4'
  | 5 => '5' | 6 => '6' | 7 => '7' | 8 => '8' | _ => '9'

/-- Big-endian decimal digits of `n`, fuel-driven so the kernel can
evaluate it. -/
def natDecCharsAux : Nat → Nat → List Char
  | 0, _ => []
  | fuel + 1, n =>
    if n < 10 then [decDigit n]
    else natDecCharsAux fuel (n / 10) ++ [decDigit (n % 10)]

def natDecChars (n : Nat) : List Char := natDecCharsAux (n + 1) n

/-- Python's `str` on an int: minus sign for negatives, decimal digits. -/
def pyStr (i : Int) : String :=
  if i < 0 then String.mk ('-' :: natDecChars i.natAbs)
  else String.mk (natDecChars i.natAbs)

/-- The tkinter variables (`current_frame_var`, `current_frame_at_startup`,
`start_frame_var`, `end_frame_var`) plus the global `ERROR_SHOWN` flag. -/
structure State where
  currentFrameVar : String
  currentFrameAtStartup : String
  startFrameVar : String
  endFrameVar : String
  errorShown : Bool
deriving DecidableEq, Repr

/-- The state right after the variable declarations at module scope:
`current_frame_var.set("1")`, the other StringVars empty, `ERROR_SHOWN`
false.  `on_startup` runs from this state. -/
def initState : State :=
  { currentFrameVar := "1"
    currentFrameAtStartup := ""
    startFrameVar := ""
    endFrameVar := ""
    errorShown := false }

/-- Result of `is_valid_integer`: the returned Bool, the new `ERROR_SHOWN`
value, and the popup (if any). -/
structure ValidResult where
  valid : Bool
  errorShown : Bool
  outs : List Output
deriving DecidableEq, Repr

/-- `is_valid_integer(value)`: `int(value)` succeeds → `True`; otherwise
pop the "Invalid input" warning unless `ERROR_SHOWN` is already set, set
`ERROR_SHOWN`, and return `False`. -/
def is_valid_integer (errorShown : Bool) (value : String) : ValidResult :=
  if (pythonParseInt? value).isSome then ⟨true, errorShown, []⟩
  else if errorShown then ⟨false, true, []⟩
  else ⟨false, true, [Output.warnInvalidInput]⟩

/-- `on_go_to` (KeyRelease): validate `current_frame_var`; when valid,
clear `ERROR_SHOWN` and push `set_param("current_frame", int(...))`, any
of the four RPC exceptions being caught and turned into a popup.  The
`some n` arm of the match is the `if is_valid_integer(...)` branch of the
source, since validity is exactly parse success. -/
def on_go_to (gw : Option GatewayFailure) (s : State) : State × List Output :=
  let v := is_valid_integer s.errorShown s.currentFrameVar
  match pythonParseInt? s.currentFrameVar with
  | some n =>
    let s1 : State := { s with errorShown := false }
    match gw with
    | none => (s1, v.outs ++ [Output.setParam "current_frame" n])
    | some k => (s1, v.outs ++ [Output.setParam "current_frame" n, Output.warnGateway k])
  | none => ({ s with errorShown := v.errorShown }, v.outs)

/-- `decrease_value` (Down arrow): when valid, set the field to
`int(current_frame) - 1` (stringified by `StringVar.set`). -/
def decrease_value (s : State) : State × List Output :=
  let v := is_valid_integer s.errorShown s.currentFrameVar
  match pythonParseInt? s.currentFrameVar with
  | some n => ({ s with currentFrameVar := pyStr (n - 1), errorShown := v.errorShown }, v.outs)
  | none => ({ s with errorShown := v.errorShown }, v.outs)

/-- `increase_value` (Up arrow): when valid, set the field to
`int(current_frame) + 1`. -/
def increase_value (s : State) : State × List Output :=
  let v := is_valid_integer s.errorShown s.currentFrameVar
  match pythonParseInt? s.currentFrameVar with
  | some n => ({ s with currentFrameVar := pyStr (n + 1), errorShown := v.errorShown }, v.outs)
  | none => ({ s with errorShown := v.errorShown }, v.outs)

/-- `on_mouse_wheel(event)`: when valid, `event.delta > 0` adds one and
`event.delta < 0` subtracts one, via `str(int(...) ± 1)`; when invalid,
`print("Invalid input")`. -/
def on_mouse_wheel (delta : Int) (s : State) : State × List Output :=
  let v := is_valid_integer s.errorShown s.currentFrameVar
  match pythonParseInt? s.currentFrameVar with
  | some n =>
    if 0 < delta then
      ({ s with currentFrameVar := pyStr (n + 1), errorShown := v.errorShown }, v.outs)
    else if delta < 0 then
      ({ s with currentFrameVar := pyStr (n - 1), errorShown := v.errorShown }, v.outs)
    else ({ s with errorShown := v.errorShown }, v.outs)
  | none => ({ s with errorShown := v.errorShown }, v.outs ++ [Output.printInvalid])

/-- `on_escape` (Escape): `current_frame_var.set(current_frame_at_startup.get())`. -/
def on_escape (s : State) : State × List Output :=
  ({ s with currentFrameVar := s.currentFrameAtStartup }, [])

instance : DecidableEq (Except GatewayFailure Int) := fun a b =>
  match a, b with
  | .error k, .error k' =>
    if h : k = k' then isTrue (by rw [h]) else isFalse (by simp [h])
  | .ok n, .ok n' =>
    if h : n = n' then isTrue (by rw [h]) else isFalse (by simp [h])
  | .error _, .ok _ => isFalse (by simp)
  | .ok _, .error _ => isFalse (by simp)

/-- Results of the three startup `get_param` calls.  A failure of
`tg.root()` itself behaves like a failure of the first fetch. -/
structure StartupResponses where
  currentFrame : Except GatewayFailure Int
  startFrame : Except GatewayFailure Int
  endFrame : Except GatewayFailure Int
deriving DecidableEq, Repr

def isErr (r : Except GatewayFailure Int) : Bool :=
  match r with
  | .error _ => true
  | .ok _ => false

/-- `on_startup`: fetch `current_frame` (stored into both
`current_frame_at_startup` and `current_frame_var`), then `start_frame`,
then `end_frame`; the first exception aborts the rest and pops a warning
naming the failure kind. -/
def on_startup (r : StartupResponses) (s : State) : State × List Output :=
  match r.currentFrame with
  | .error k => (s, [Output.getParam "current_frame", Output.warnGateway k])
  | .ok cf =>
    let s1 : State := { s with currentFrameAtStartup := pyStr cf, currentFrameVar := pyStr cf }
    match r.startFrame with
    | .error k =>
      (s1, [Output.getParam "current_frame", Output.getParam "start_frame", Output.warnGateway k])
    | .ok sf =>
      let s2 : State := { s1 with startFrameVar := pyStr sf }
      match r.endFrame with
      | .error k =>
        (s2, [Output.getParam "current_frame", Output.getParam "start_frame",
              Output.getParam "end_frame", Output.warnGateway k])
      | .ok ef =>
        ({ s2 with endFrameVar := pyStr ef },
         [Output.getParam "current_frame", Output.getParam "start_frame",
          Output.getParam "end_frame"])

/-- One interactive input event.  `setText` is the Entry widget writing
the bound StringVar as the user types (no handler of its own); the others
are the bound handlers, `goTo` carrying the result of its `set_param`
call (`none` = success). -/
inductive Event
  | setText (t : String)
  | goTo (gw : Option GatewayFailure)
  | up
  | down
  | wheel (delta : Int)
  | escape
deriving DecidableEq, Repr

def step (s : State) : Event → State × List Output
  | .setText t => ({ s with currentFrameVar := t }, [])
  | .goTo gw => on_go_to gw s
  | .up => increase_value s
  | .down => decrease_value s
  | .wheel d => on_mouse_wheel d s
  | .escape => on_escape s

/-- Run a sequence of events, accumulating outputs. -/
def run (s : State) : List Event → State × List Output
  | [] => (s, [])
  | e :: es => ((run (step s e).1 es).1, (step s e).2 ++ (run (step s e).1 es).2)

/-- The state seen by each event in the sequence (its pre-state). -/
def runStates (s : State) : List Event → List State
  | [] => []
  | e :: es => s :: runStates (step s e).1 es

/-! ## Spec-side recognizers -/

/-- Spec-side recognizer, following the spec's words "text parses as a
base-10 integer (optionally signed)": an optional sign followed by a
nonempty run of decimal digits, nothing else. -/
def specSignedDecimal (s : String) : Bool :=
  match s.toList with
  | [] => false
  | c :: rest =>
    if c = '+' || c = '-' then !rest.isEmpty && rest.all Char.isDigit
    else (c :: rest).all Char.isDigit

/-- Grammar of the tail of a Python digit run: `('_'? digit)*`, with each
underscore standing between two digits. -/
inductive Tail : List Char → Prop
  | nil : Tail []
  | dig {c : Char} {l : List Char} : c.isDigit = true → Tail l → Tail (c :: l)
  | und {c : Char} {l : List Char} : c.isDigit = true → Tail l → Tail ('_' :: c :: l)

/-- Grammar of a Python digit run: a digit followed by a `Tail`. -/
def DigitSeq (l : List Char) : Prop :=
  ∃ c r, l = c :: r ∧ c.isDigit = true ∧ Tail r

/-- Grammar of a Python base-10 int literal body (whitespace already
stripped): optional sign, then a digit run with single underscores
between digits. -/
def PyIntText (l : List Char) : Prop :=
  match l with
  | [] => False
  | c :: rest => if c = '+' ∨ c = '-' then DigitSeq rest else DigitSeq l

/-! ## Parser characterization -/

lemma pyDigitsAux_isSome :
    ∀ (l : List Char) (afterUnd : Bool) (acc : Nat),
      (pyDigitsAux l afterUnd acc).isSome = true ↔
        (if afterUnd then ∃ c r, l = c :: r ∧ c.isDigit = true ∧ Tail r else Tail l) := by
  intro l
  induction l with
  | nil =>
    intro afterUnd acc
    cases afterUnd with
    | false =>
      have hnil : Tail ([] : List Char) := Tail.nil
      simp [pyDigitsAux, hnil]
    | true =>
      simp [pyDigitsAux]
  | cons c rest ih =>
    intro afterUnd acc
    by_cases hd : c.isDigit
    · rw [show pyDigitsAux (c :: rest) afterUnd acc
          = pyDigitsAux rest false (acc * 10 + (c.toNat - 48)) by
        simp [pyDigitsAux, hd]]
      rw [ih false (acc * 10 + (c.toNat - 48))]
      simp only [if_neg (by simp : ¬false = true)]
      cases afterUnd with
      | false =>
        simp only [if_neg (by simp : ¬false = true)]
        constructor
        · exact fun h => Tail.dig hd h
        · intro h
          cases h with
          | dig _ h' => exact h'
          | und hdig h' => exact absurd hd (by simp)
      | true =>
        simp only [if_pos rfl]
        constructor
        · intro h; exact ⟨c, rest, rfl, hd, h⟩
        · rintro ⟨c', r', heq, hdig, ht⟩
          cases heq; exact ht
    · by_cases hu : c = '_'
      · subst hu
        cases afterUnd with
        | false =>
          rw [show pyDigitsAux ('_' :: rest) false acc = pyDigitsAux rest true acc by
            simp [pyDigitsAux, hd]]
          rw [ih true acc]
          simp only [if_pos rfl, if_neg (by simp : ¬false = true)]
          constructor
          · rintro ⟨c2, r2, heq, hdig, ht⟩
            subst heq
            exact Tail.und hdig ht
          · intro h
            cases h with
            | dig hdig _ => exact absurd hdig (by simp at hd; simp [hd])
            | und hdig ht => exact ⟨_, _, rfl, hdig, ht⟩
        | true =>
          rw [show pyDigitsAux ('_' :: rest) true acc = none by
            simp [pyDigitsAux, hd]]
          simp only [Option.isSome_none, if_pos rfl]
          constructor
          · intro h; cases h
          · rintro ⟨c', r', heq, hdig, ht⟩
            cases heq
            exact absurd hdig (by simp)
      · rw [show pyDigitsAux (c :: rest) afterUnd acc = none by
          simp [pyDigitsAux, hd, hu]]
        simp only [Option.isSome_none]
        cases afterUnd with
        | false =>
          simp only [if_neg (by simp : ¬false = true)]
          constructor
          · intro h; cases h
          · intro h
            cases h with
            | dig hdig _ => exact absurd hdig (by simp [hd])
            | und hdig _ => exact absurd rfl hu
        | true =>
          simp only [if_pos rfl]
          constructor
          · intro h; cases h
          · rintro ⟨c', r', heq, hdig, ht⟩
            cases heq
            exact absurd hdig (by simp [hd])

lemma pyDigits_isSome_iff (l : List Char) :
    (pyDigits l).isSome = true ↔ DigitSeq l := by
  cases l with
  | nil =>
    simp only [pyDigits, Option.isSome_none, DigitSeq]
    constructor
    · intro h; cases h
    · rintro ⟨c, r, heq, _⟩; cases heq
  | cons c rest =>
    by_cases hd : c.isDigit
    · rw [show pyDigits (c :: rest) = pyDigitsAux rest false (c.toNat - 48) by
        simp [pyDigits, hd]]
      rw [pyDigitsAux_isSome rest false (c.toNat - 48)]
      simp only [if_neg (by simp : ¬false = true), DigitSeq]
      constructor
      · intro h; exact ⟨c, rest, rfl, hd, h⟩
      · rintro ⟨c', r', heq, _, ht⟩; cases heq; exact ht
    · rw [show pyDigits (c :: rest) = none by simp [pyDigits, hd]]
      simp only [Option.isSome_none, DigitSeq]
      constructor
      · intro h; cases h
      · rintro ⟨c', r', heq, hdig, _⟩; cases heq; exact absurd hdig (by simp [hd])

lemma pythonParseInt?_isSome_iff (s : String) :
    (pythonParseInt? s).isSome = true ↔ PyIntText (pythonStrip s.toList) := by
  unfold pythonParseInt? PyIntText
  cases hs : pythonStrip s.toList with
  | nil => simp
  | cons c rest =>
    dsimp only
    by_cases hp : c = '+'
    · subst hp
      rw [if_pos rfl, if_pos (Or.inl rfl), Option.isSome_map']
      exact pyDigits_isSome_iff rest
    · by_cases hm : c = '-'
      · subst hm
        rw [if_neg (by decide : ¬('-' = '+')), if_pos rfl, if_pos (Or.inr rfl),
          Option.isSome_map']
        exact pyDigits_isSome_iff rest
      · rw [if_neg hp, if_neg hm, if_neg (fun h => h.elim hp hm), Option.isSome_map']
        exact pyDigits_isSome_iff (c :: rest)

/-! ## Decimal printing round-trip -/

lemma pyDigitsAux_digits_only :
    ∀ (l : List Char) (acc : Nat), (∀ c ∈ l, c.isDigit = true) →
      pyDigitsAux l false acc
        = some (l.foldl (fun a c => a * 10 + (c.toNat - 48)) acc) := by
  intro l
  induction l with
  | nil => intro acc _; simp [pyDigitsAux]
  | cons c rest ih =>
    intro acc h
    have hc : c.isDigit = true := h c (List.mem_cons_self c rest)
    rw [show pyDigitsAux (c :: rest) false acc
        = pyDigitsAux rest false (acc * 10 + (c.toNat - 48)) by simp [pyDigitsAux, hc]]
    rw [ih (acc * 10 + (c.toNat - 48)) (fun c' hc' => h c' (List.mem_cons_of_mem c hc'))]
    simp [List.foldl]

lemma decDigit_isDigit {d : Nat} (h : d < 10) : (decDigit d).isDigit = true := by
  interval_cases d <;> decide

lemma decDigit_toNat {d : Nat} (h : d < 10) : (decDigit d).toNat - 48 = d := by
  interval_cases d <;> decide

lemma natDecCharsAux_spec :
    ∀ (fuel n : Nat), n < fuel →
      (∀ c ∈ natDecCharsAux fuel n, c.isDigit = true) ∧
      natDecCharsAux fuel n ≠ [] ∧
      ∀ acc : Nat,
        (natDecCharsAux fuel n).foldl (fun a c => a * 10 + (c.toNat - 48)) acc
          = acc * 10 ^ (natDecCharsAux fuel n).length + n := by
  intro fuel
  induction fuel with
  | zero => intro n hn; omega
  | succ f ih =>
    intro n hn
    by_cases h10 : n < 10
    · rw [show natDecCharsAux (f + 1) n = [decDigit n] by simp [natDecCharsAux, h10]]
      refine ⟨?_, by simp, ?_⟩
      · intro c hc
        simp at hc
        subst hc
        exact decDigit_isDigit h10
      · intro acc
        simp [List.foldl, decDigit_toNat h10]
    · have hrec : n / 10 < f := by
        have h1 : n / 10 < n := Nat.div_lt_self (by omega) (by omega)
        omega
      rw [show natDecCharsAux (f + 1) n
          = natDecCharsAux f (n / 10) ++ [decDigit (n % 10)] by simp [natDecCharsAux, h10]]
      obtain ⟨hd, hne, hf⟩ := ih (n / 10) hrec
      refine ⟨?_, by simp, ?_⟩
      · intro c hc
        rcases List.mem_append.mp hc with hc1 | hc2
        · exact hd c hc1
        · simp at hc2
          subst hc2
          exact decDigit_isDigit (Nat.mod_lt n (by omega))
      · intro acc
        rw [List.foldl_append, hf acc]
        simp only [List.foldl, List.length_append, List.length_singleton]
        rw [decDigit_toNat (Nat.mod_lt n (by omega)), pow_succ, ← mul_assoc]
        have hdm := Nat.div_add_mod n 10
        generalize acc * 10 ^ (natDecCharsAux f (n / 10)).length = B
        omega

lemma pyDigits_natDecChars (m : Nat) : pyDigits (natDecChars m) = some m := by
  obtain ⟨hd, hne, hf⟩ := natDecCharsAux_spec (m + 1) m (Nat.lt_succ_self m)
  unfold natDecChars
  cases hl : natDecCharsAux (m + 1) m with
  | nil => exact absurd hl hne
  | cons c rest =>
    have hc : c.isDigit = true := by
      apply hd
      rw [hl]
      exact List.mem_cons_self c rest
    rw [show pyDigits (c :: rest) = pyDigitsAux rest false (c.toNat - 48) by
      simp [pyDigits, hc]]
    have hrest : ∀ c' ∈ rest, c'.isDigit = true := by
      intro c' hc'
      apply hd
      rw [hl]
      exact List.mem_cons_of_mem c hc'
    rw [pyDigitsAux_digits_only rest (c.toNat - 48) hrest]
    have := hf 0
    rw [hl] at this
    simp only [List.foldl, zero_mul, zero_add] at this
    rw [this]

lemma isDigit_not_sign {c : Char} (h : c.isDigit = true) :
    c ≠ '+' ∧ c ≠ '-' ∧ isPyWs c = false := by
  refine ⟨?_, ?_, ?_⟩
  · rintro rfl; simp at h
  · rintro rfl; simp at h
  · by_contra hw
    rw [Bool.not_eq_false] at hw
    simp only [isPyWs, Bool.or_eq_true, decide_eq_true_eq] at hw
    rcases hw with ((((h1 | h2) | h3) | h4) | h5) | h6 <;> subst_vars <;> simp at h

lemma dropWhile_eq_self_of {p : Char → Bool} {l : List Char}
    (h : ∀ c ∈ l, p c = false) : l.dropWhile p = l := by
  cases l with
  | nil => rfl
  | cons c t =>
    rw [List.dropWhile_cons, h c (List.mem_cons_self c t)]
    simp

lemma pythonStrip_eq_self {l : List Char} (h : ∀ c ∈ l, isPyWs c = false) :
    pythonStrip l = l := by
  unfold pythonStrip
  rw [dropWhile_eq_self_of h,
    dropWhile_eq_self_of (fun c hc => h c (List.mem_reverse.mp hc)),
    List.reverse_reverse]

lemma toList_mk (cs : List Char) : (String.mk cs).toList = cs := rfl

lemma pyStr_roundtrip (i : Int) : pythonParseInt? (pyStr i) = some i := by
  obtain ⟨hd, hne, _⟩ :=
    natDecCharsAux_spec (i.natAbs + 1) i.natAbs (Nat.lt_succ_self i.natAbs)
  have hdigs : ∀ c ∈ natDecChars i.natAbs, c.isDigit = true := hd
  by_cases hneg : i < 0
  · rw [show pyStr i = String.mk ('-' :: natDecChars i.natAbs) by simp [pyStr, hneg]]
    unfold pythonParseInt?
    rw [toList_mk]
    have hnw : ∀ c ∈ '-' :: natDecChars i.natAbs, isPyWs c = false := by
      intro c hc
      rcases List.mem_cons.mp hc with rfl | hc'
      · decide
      · exact (isDigit_not_sign (hdigs c hc')).2.2
    rw [pythonStrip_eq_self hnw]
    dsimp only
    rw [if_neg (by decide : ¬('-' = '+')), if_pos rfl, pyDigits_natDecChars]
    simp only [Option.map_some', Int.ofNat_eq_coe]
    congr 1
    omega
  · rw [show pyStr i = String.mk (natDecChars i.natAbs) by simp [pyStr, hneg]]
    unfold pythonParseInt?
    rw [toList_mk]
    have hnw : ∀ c ∈ natDecChars i.natAbs, isPyWs c = false :=
      fun c hc => (isDigit_not_sign (hdigs c hc)).2.2
    rw [pythonStrip_eq_self hnw]
    cases hl : natDecChars i.natAbs with
    | nil => exact absurd hl hne
    | cons c rest =>
      have hc : c.isDigit = true := by
        apply hdigs
        rw [hl]
        exact List.mem_cons_self c rest
      dsimp only
      rw [if_neg (isDigit_not_sign hc).1, if_neg (isDigit_not_sign hc).2.1, ← hl,
        pyDigits_natDecChars]
      simp only [Option.map_some', Int.ofNat_eq_coe]
      congr 1
      omega

/-! ## Behavioral helper lemmas -/

lemma valid_iff_parse (flag : Bool) (t : String) :
    (is_valid_integer flag t).valid = true ↔ (pythonParseInt? t).isSome = true := by
  unfold is_valid_integer
  cases h : (pythonParseInt? t).isSome with
  | false =>
    simp only [h, if_neg (by simp : ¬false = true)]
    cases flag <;> simp
  | true => simp [h]

lemma step_preserves_snapshot (s : State) (e : Event) :
    (step s e).1.currentFrameAtStartup = s.currentFrameAtStartup := by
  cases e with
  | setText t => rfl
  | goTo gw =>
    unfold step on_go_to
    cases pythonParseInt? s.currentFrameVar with
    | some n => cases gw <;> rfl
    | none => rfl
  | up =>
    unfold step increase_value
    cases pythonParseInt? s.currentFrameVar <;> rfl
  | down =>
    unfold step decrease_value
    cases pythonParseInt? s.currentFrameVar <;> rfl
  | wheel d =>
    unfold step on_mouse_wheel
    cases pythonParseInt? s.currentFrameVar with
    | some n =>
      by_cases h1 : 0 < d
      · simp [h1]
      · by_cases h2 : d < 0 <;> simp [h1, h2]
    | none => rfl
  | escape => rfl

lemma run_preserves_snapshot :
    ∀ (es : List Event) (s : State),
      (run s es).1.currentFrameAtStartup = s.currentFrameAtStartup := by
  intro es
  induction es with
  | nil => intro s; rfl
  | cons e rest ih =>
    intro s
    unfold run
    rw [ih (step s e).1, step_preserves_snapshot]

lemma countWarnInvalid_append (a b : List Output) :
    countWarnInvalid (a ++ b) = countWarnInvalid a + countWarnInvalid b := by
  unfold countWarnInvalid
  rw [List.filter_append, List.length_append]

lemma step_warn_bound (s : State) (e : Event)
    (h : (pythonParseInt? s.currentFrameVar).isSome = false) :
    countWarnInvalid (step s e).2 + (if (step s e).1.errorShown then 0 else 1)
      ≤ if s.errorShown then 0 else 1 := by
  have hp : pythonParseInt? s.currentFrameVar = none := by
    cases hq : pythonParseInt? s.currentFrameVar with
    | none => rfl
    | some v => rw [hq] at h; simp at h
  cases e with
  | setText t =>
    simp only [step]
    by_cases hs : s.errorShown = true <;> simp [hs, countWarnInvalid]
  | goTo gw =>
    simp only [step, on_go_to, hp, is_valid_integer, Option.isSome_none,
      if_neg (by simp : ¬false = true)]
    cases hs : s.errorShown <;>
      simp [countWarnInvalid, List.filter, Output.isWarnInvalid]
  | up =>
    simp only [step, increase_value, hp, is_valid_integer, Option.isSome_none,
      if_neg (by simp : ¬false = true)]
    cases hs : s.errorShown <;>
      simp [countWarnInvalid, List.filter, Output.isWarnInvalid]
  | down =>
    simp only [step, decrease_value, hp, is_valid_integer, Option.isSome_none,
      if_neg (by simp : ¬false = true)]
    cases hs : s.errorShown <;>
      simp [countWarnInvalid, List.filter, Output.isWarnInvalid]
  | wheel d =>
    simp only [step, on_mouse_wheel, hp, is_valid_integer, Option.isSome_none,
      if_neg (by simp : ¬false = true)]
    cases hs : s.errorShown <;>
      simp [countWarnInvalid, List.filter, Output.isWarnInvalid]
  | escape =>
    simp only [step, on_escape]
    by_cases hs : s.errorShown = true <;> simp [hs, countWarnInvalid]

lemma run_warn_bound :
    ∀ (es : List Event) (s : State),
      (∀ s' ∈ runStates s es, (pythonParseInt? s'.currentFrameVar).isSome = false) →
      countWarnInvalid (run s es).2 + (if (run s es).1.errorShown then 0 else 1)
        ≤ if s.errorShown then 0 else 1 := by
  intro es
  induction es with
  | nil =>
    intro s _
    simp [run, countWarnInvalid]
  | cons e rest ih =>
    intro s h
    have h0 : (pythonParseInt? s.currentFrameVar).isSome = false := by
      apply h
      unfold runStates
      exact List.mem_cons_self s _
    have htail : ∀ s' ∈ runStates (step s e).1 rest,
        (pythonParseInt? s'.currentFrameVar).isSome = false := by
      intro s' hs'
      apply h
      unfold runStates
      exact List.mem_cons_of_mem s hs'
    have h1 := step_warn_bound s e h0
    have h2 := ih (step s e).1 htail
    unfold run
    dsimp only
    rw [countWarnInvalid_append]
    omega

lemma is_valid_integer_of_parse {t : String} {n : Int} (h : pythonParseInt? t = some n)
    (f : Bool) : is_valid_integer f t = ⟨true, f, []⟩ := by
  unfold is_valid_integer
  rw [h]
  simp

lemma is_valid_integer_of_none {t : String} (h : pythonParseInt? t = none) (f : Bool) :
    is_valid_integer f t = ⟨false, true, if f then [] else [Output.warnInvalidInput]⟩ := by
  unfold is_valid_integer
  rw [h]
  cases f <;> simp

lemma countSetParam_append (a b : List Output) :
    countSetParam (a ++ b) = countSetParam a + countSetParam b := by
  unfold countSetParam
  rw [List.filter_append, List.length_append]

/-! ## Claims -/

/-- C1: `on_go_to` pushes `set_param("current_frame", n)` exactly when the
field text parses as the integer `n`; when validation fails it makes no
remote call of any kind, so every pushed value has passed validation. -/
theorem commit_pushes_iff_valid (s : State) (gw : Option GatewayFailure) :
    (∀ n : Int, Output.setParam "current_frame" n ∈ (on_go_to gw s).2 ↔
        pythonParseInt? s.currentFrameVar = some n)
    ∧ ((is_valid_integer s.errorShown s.currentFrameVar).valid = false →
        ∀ o ∈ (on_go_to gw s).2, o.isRemote = false) := by
  cases hp : pythonParseInt? s.currentFrameVar with
  | some m =>
    have hv := is_valid_integer_of_parse hp s.errorShown
    constructor
    · intro n
      cases gw <;>
        simp [on_go_to, hp, hv, List.mem_cons, Option.some.injEq, eq_comm]
    · intro hfalse
      rw [hv] at hfalse
      simp at hfalse
  | none =>
    have hv := is_valid_integer_of_none hp s.errorShown
    constructor
    · intro n
      simp only [on_go_to, hp, hv]
      cases hs : s.errorShown <;> simp
    · intro _ o ho
      simp only [on_go_to, hp, hv] at ho
      cases hs : s.errorShown
      · rw [hs] at ho
        simp at ho
        simp [ho, Output.isRemote]
      · rw [hs] at ho
        simp at ho

/-- C1 witness: with text "7" the push `set_param("current_frame", 7)`
happens; with text "abc" no remote output is produced. -/
theorem commit_pushes_iff_valid_witness :
    Output.setParam "current_frame" 7 ∈ (on_go_to none (State.mk "7" "" "" "" false)).2 ∧
    ∀ o ∈ (on_go_to none (State.mk "abc" "" "" "" true)).2, o.isRemote = false :=
  ⟨((commit_pushes_iff_valid (State.mk "7" "" "" "" false) none).1 7).mpr (by decide),
   (commit_pushes_iff_valid (State.mk "abc" "" "" "" true) none).2 (by decide)⟩

/-- C2: in any run all of whose visited states hold invalid text, at most
one "Invalid input" popup fires; mechanism: an invalid check pops the
warning only when `ERROR_SHOWN` is unset and always leaves the flag set. -/
theorem invalid_run_warns_at_most_once (s : State) (es : List Event)
    (h : ∀ s' ∈ runStates s es, (pythonParseInt? s'.currentFrameVar).isSome = false) :
    countWarnInvalid (run s es).2 ≤ 1 ∧
    ∀ (flag : Bool) (t : String), (pythonParseInt? t).isSome = false →
      (is_valid_integer flag t).errorShown = true ∧
      countWarnInvalid (is_valid_integer flag t).outs = if flag then 0 else 1 := by
  constructor
  · have hb := run_warn_bound es s h
    by_cases hs : s.errorShown = true <;> simp [hs] at hb <;> omega
  · intro flag t ht
    have hn : pythonParseInt? t = none := by
      cases hq : pythonParseInt? t with
      | none => rfl
      | some v => rw [hq] at ht; simp at ht
    rw [is_valid_integer_of_none hn flag]
    cases flag <;> simp [countWarnInvalid, List.filter, Output.isWarnInvalid]

/-- C2 witness: a run of four invalid-checking events fires one warning. -/
theorem invalid_run_warns_at_most_once_witness :
    countWarnInvalid (run (State.mk "abc" "abc" "" "" false)
      [Event.goTo none, Event.up, Event.wheel 1, Event.down, Event.escape]).2 ≤ 1 ∧
    (is_valid_integer false "xyz").errorShown = true :=
  ⟨(invalid_run_warns_at_most_once (State.mk "abc" "abc" "" "" false)
      [Event.goTo none, Event.up, Event.wheel 1, Event.down, Event.escape] (by decide)).1,
   ((invalid_run_warns_at_most_once initState [] (by decide)).2 false "xyz" (by decide)).1⟩

/-- C3 counterexample: with `ERROR_SHOWN` set and the valid text "5", the
Up-arrow handler leaves the flag set — it is not reset by every handler
that sees valid text. -/
theorem step_with_valid_text_keeps_flag :
    (pythonParseInt? (State.mk "5" "" "" "" true).currentFrameVar).isSome = true ∧
    (increase_value (State.mk "5" "" "" "" true)).1.errorShown = true := by decide

/-- C3 (amended): `on_go_to` resets the suppression flag on valid text,
but `increase_value`, `decrease_value` and `on_mouse_wheel` leave the flag
unchanged even when the text passes validation. -/
theorem flag_reset_only_by_commit (s : State) (n : Int)
    (h : pythonParseInt? s.currentFrameVar = some n) :
    (∀ gw, (on_go_to gw s).1.errorShown = false) ∧
    (increase_value s).1.errorShown = s.errorShown ∧
    (decrease_value s).1.errorShown = s.errorShown ∧
    ∀ d : Int, (on_mouse_wheel d s).1.errorShown = s.errorShown := by
  have hv := is_valid_integer_of_parse h s.errorShown
  refine ⟨?_, ?_, ?_, ?_⟩
  · intro gw
    cases gw <;> simp [on_go_to, h]
  · simp [increase_value, h, hv]
  · simp [decrease_value, h, hv]
  · intro d
    by_cases h1 : 0 < d
    · simp [on_mouse_wheel, h, hv, h1]
    · by_cases h2 : d < 0 <;> simp [on_mouse_wheel, h, hv, h1, h2]

/-- C3 witness: commit clears the flag at "5"; the Up-arrow handler keeps
it set. -/
theorem flag_reset_only_by_commit_witness :
    (on_go_to (some GatewayFailure.apiFailure) (State.mk "5" "x" "" "" true)).1.errorShown
      = false ∧
    (increase_value (State.mk "5" "x" "" "" true)).1.errorShown = true :=
  ⟨(flag_reset_only_by_commit (State.mk "5" "x" "" "" true) 5 (by decide)).1 _,
   ((flag_reset_only_by_commit (State.mk "5" "x" "" "" true) 5 (by decide)).2.1).trans rfl⟩

/-- C4: the arrow-key and wheel handlers never push to the gateway; on
valid text `n` they move the field to the text of `n+1` / `n-1` (wheel:
`+1` for positive delta, `-1` for negative); on invalid text the field is
unchanged. -/
theorem step_and_wheel_local (s : State) :
    (countSetParam (increase_value s).2 = 0 ∧
     countSetParam (decrease_value s).2 = 0 ∧
     ∀ d : Int, countSetParam (on_mouse_wheel d s).2 = 0) ∧
    (∀ n : Int, pythonParseInt? s.currentFrameVar = some n →
       (increase_value s).1.currentFrameVar = pyStr (n + 1) ∧
       (decrease_value s).1.currentFrameVar = pyStr (n - 1) ∧
       (∀ d : Int, 0 < d → (on_mouse_wheel d s).1.currentFrameVar = pyStr (n + 1)) ∧
       (∀ d : Int, d < 0 → (on_mouse_wheel d s).1.currentFrameVar = pyStr (n - 1))) ∧
    (pythonParseInt? s.currentFrameVar = none →
       (increase_value s).1.currentFrameVar = s.currentFrameVar ∧
       (decrease_value s).1.currentFrameVar = s.currentFrameVar ∧
       ∀ d : Int, (on_mouse_wheel d s).1.currentFrameVar = s.currentFrameVar) := by
  refine ⟨⟨?_, ?_, ?_⟩, ?_, ?_⟩
  · cases hp : pythonParseInt? s.currentFrameVar with
    | some n =>
      simp [increase_value, hp, is_valid_integer_of_parse hp, countSetParam]
    | none =>
      have hv := is_valid_integer_of_none hp s.errorShown
      simp only [increase_value, hp, hv]
      cases s.errorShown <;> simp [countSetParam, List.filter, Output.isSetParam]
  · cases hp : pythonParseInt? s.currentFrameVar with
    | some n =>
      simp [decrease_value, hp, is_valid_integer_of_parse hp, countSetParam]
    | none =>
      have hv := is_valid_integer_of_none hp s.errorShown
      simp only [decrease_value, hp, hv]
      cases s.errorShown <;> simp [countSetParam, List.filter, Output.isSetParam]
  · intro d
    cases hp : pythonParseInt? s.currentFrameVar with
    | some n =>
      have hv := is_valid_integer_of_parse hp s.errorShown
      by_cases h1 : 0 < d
      · simp [on_mouse_wheel, hp, hv, h1, countSetParam]
      · by_cases h2 : d < 0 <;>
          simp [on_mouse_wheel, hp, hv, h1, h2, countSetParam]
    | none =>
      have hv := is_valid_integer_of_none hp s.errorShown
      simp only [on_mouse_wheel, hp, hv]
      cases s.errorShown <;>
        simp [countSetParam, List.filter, Output.isSetParam]
  · intro n hp
    have hv := is_valid_integer_of_parse hp s.errorShown
    refine ⟨by simp [increase_value, hp], by simp [decrease_value, hp], ?_, ?_⟩
    · intro d h1
      simp [on_mouse_wheel, hp, h1]
    · intro d h2
      have h1 : ¬0 < d := by omega
      simp [on_mouse_wheel, hp, h1, h2]
  · intro hp
    have hv := is_valid_integer_of_none hp s.errorShown
    refine ⟨by simp [increase_value, hp], by simp [decrease_value, hp], ?_⟩
    intro d
    simp [on_mouse_wheel, hp]

/-- C4 witness: at "5" Up gives "6", Down gives "4", wheel −3 gives "4";
at "abc" the field is unchanged. -/
theorem step_and_wheel_local_witness :
    (increase_value (State.mk "5" "" "" "" false)).1.currentFrameVar = "6" ∧
    (decrease_value (State.mk "5" "" "" "" false)).1.currentFrameVar = "4" ∧
    (on_mouse_wheel (-3) (State.mk "5" "" "" "" false)).1.currentFrameVar = "4" ∧
    (increase_value (State.mk "abc" "" "" "" false)).1.currentFrameVar = "abc" :=
  ⟨((step_and_wheel_local (State.mk "5" "" "" "" false)).2.1 5 (by decide)).1.trans
     (by decide),
   ((step_and_wheel_local (State.mk "5" "" "" "" false)).2.1 5 (by decide)).2.1.trans
     (by decide),
   (((step_and_wheel_local (State.mk "5" "" "" "" false)).2.1 5 (by decide)).2.2.2
      (-3) (by decide)).trans (by decide),
   ((step_and_wheel_local (State.mk "abc" "" "" "" false)).2.2 (by decide)).1⟩

/-- C5: Escape restores the startup snapshot into the field, produces no
output at all (no popup, no gateway call), changes nothing else, and does
so after any number of intervening events. -/
theorem escape_restores_startup_snapshot (s : State) :
    (on_escape s).1.currentFrameVar = s.currentFrameAtStartup ∧
    (on_escape s).2 = [] ∧
    (on_escape s).1.currentFrameAtStartup = s.currentFrameAtStartup ∧
    (on_escape s).1.startFrameVar = s.startFrameVar ∧
    (on_escape s).1.endFrameVar = s.endFrameVar ∧
    (on_escape s).1.errorShown = s.errorShown ∧
    ∀ es : List Event,
      (on_escape (run s es).1).1.currentFrameVar = s.currentFrameAtStartup := by
  refine ⟨rfl, rfl, rfl, rfl, rfl, rfl, ?_⟩
  intro es
  show (run s es).1.currentFrameAtStartup = s.currentFrameAtStartup
  exact run_preserves_snapshot es s

/-- C6 counterexample: the `current_frame` fetch succeeds with 24 and the
`start_frame` fetch times out — exactly one warning fires, but the field
shows "24", not the pre-set default "1". -/
theorem startup_later_failure_not_default :
    countWarnGateway (on_startup
      ⟨Except.ok 24, Except.error GatewayFailure.timeoutFailure, Except.ok 100⟩
      initState).2 = 1 ∧
    (on_startup ⟨Except.ok 24, Except.error GatewayFailure.timeoutFailure, Except.ok 100⟩
      initState).1.currentFrameVar ≠ "1" := by decide

/-- C6 (amended): when any of the three startup fetches fails, exactly one
warning naming the failure kind is surfaced (the later fetches are
skipped); the field keeps the default "1" only when the `current_frame`
fetch itself failed — when a later fetch fails it already holds the
fetched current-frame text. -/
theorem startup_failure_single_warning (r : StartupResponses)
    (h : isErr r.currentFrame = true ∨ isErr r.startFrame = true ∨ isErr r.endFrame = true) :
    countWarnGateway (on_startup r initState).2 = 1 ∧
    (∀ k, r.currentFrame = Except.error k →
      (on_startup r initState).1.currentFrameVar = "1" ∧
      (on_startup r initState).1.currentFrameAtStartup = "") ∧
    ∀ cf : Int, r.currentFrame = Except.ok cf →
      (on_startup r initState).1.currentFrameVar = pyStr cf := by
  obtain ⟨rc, rs, re⟩ := r
  cases rc with
  | error k =>
    refine ⟨by simp [on_startup, countWarnGateway, List.filter, Output.isWarnGateway], ?_, ?_⟩
    · intro k' hk'
      exact ⟨rfl, rfl⟩
    · intro cf hcf
      exact absurd hcf (by simp)
  | ok cf0 =>
    cases rs with
    | error k =>
      refine ⟨by simp [on_startup, countWarnGateway, List.filter, Output.isWarnGateway],
        ?_, ?_⟩
      · intro k' hk'
        exact absurd hk' (by simp)
      · intro cf hcf
        simp only [Except.ok.injEq] at hcf
        subst hcf
        rfl
    | ok sf0 =>
      cases re with
      | error k =>
        refine ⟨by simp [on_startup, countWarnGateway, List.filter, Output.isWarnGateway],
          ?_, ?_⟩
        · intro k' hk'
          exact absurd hk' (by simp)
        · intro cf hcf
          simp only [Except.ok.injEq] at hcf
          subst hcf
          rfl
      | ok ef0 =>
        simp [isErr] at h

/-- C6 witness: a timed-out `current_frame` fetch yields one warning and
leaves the field at "1". -/
theorem startup_failure_single_warning_witness :
    countWarnGateway (on_startup
      ⟨Except.error GatewayFailure.timeoutFailure, Except.ok 0, Except.ok 0⟩
      initState).2 = 1 ∧
    (on_startup ⟨Except.error GatewayFailure.timeoutFailure, Except.ok 0, Except.ok 0⟩
      initState).1.currentFrameVar = "1" :=
  ⟨(startup_failure_single_warning
      ⟨Except.error GatewayFailure.timeoutFailure, Except.ok 0, Except.ok 0⟩
      (Or.inl (by decide))).1,
   ((startup_failure_single_warning
      ⟨Except.error GatewayFailure.timeoutFailure, Except.ok 0, Except.ok 0⟩
      (Or.inl (by decide))).2.1 GatewayFailure.timeoutFailure rfl).1⟩

/-- C7 counterexample: when startup fails, the snapshot keeps the
StringVar's initial empty text, and Escape then loads "" into the field —
text that fails integer validation, contradicting "the snapshot text is a
valid integer whenever Revert reads it". -/
theorem failed_startup_snapshot_invalid :
    (on_startup ⟨Except.error GatewayFailure.connectionFailure,
        Except.error GatewayFailure.connectionFailure,
        Except.error GatewayFailure.connectionFailure⟩
      initState).1.currentFrameAtStartup = "" ∧
    (pythonParseInt?
      ((on_escape (on_startup ⟨Except.error GatewayFailure.connectionFailure,
          Except.error GatewayFailure.connectionFailure,
          Except.error GatewayFailure.connectionFailure⟩ initState).1).1.currentFrameVar)).isSome
      = false := by decide

/-- C7 (amended): the snapshot is written only by a successful
`current_frame` fetch (in which case it is valid integer text and parses
back to the fetched value) and is preserved by every interactive event;
after a failed fetch it keeps its initial empty text, which is not valid. -/
theorem snapshot_write_once_amended (r : StartupResponses) (es : List Event) (s : State) :
    (∀ k, r.currentFrame = Except.error k →
      (on_startup r initState).1.currentFrameAtStartup = initState.currentFrameAtStartup) ∧
    (∀ cf : Int, r.currentFrame = Except.ok cf →
      (on_startup r initState).1.currentFrameAtStartup = pyStr cf ∧
      pythonParseInt? ((on_startup r initState).1.currentFrameAtStartup) = some cf) ∧
    (run s es).1.currentFrameAtStartup = s.currentFrameAtStartup := by
  obtain ⟨rc, rs, re⟩ := r
  refine ⟨?_, ?_, run_preserves_snapshot es s⟩
  · intro k hk
    cases rc with
    | error k' => rfl
    | ok cf0 => exact absurd hk (by simp)
  · intro cf hcf
    cases rc with
    | error k' => exact absurd hcf (by simp)
    | ok cf0 =>
      simp only [Except.ok.injEq] at hcf
      subst hcf
      have hsnap : (on_startup ⟨Except.ok cf0, rs, re⟩ initState).1.currentFrameAtStartup
          = pyStr cf0 := by
        cases rs with
        | error k => rfl
        | ok sf0 =>
          cases re with
          | error k => rfl
          | ok ef0 => rfl
      exact ⟨hsnap, by rw [hsnap]; exact pyStr_roundtrip cf0⟩

/-- C7 witness: fetching 24 stores snapshot "24", which parses back. -/
theorem snapshot_write_once_amended_witness :
    (on_startup ⟨Except.ok 24, Except.ok 1, Except.ok 100⟩
      initState).1.currentFrameAtStartup = "24" ∧
    pythonParseInt? "24" = some 24 := by
  have h := (snapshot_write_once_amended ⟨Except.ok 24, Except.ok 1, Except.ok 100⟩
    [] initState).2.1 24 rfl
  have e : (on_startup ⟨Except.ok 24, Except.ok 1, Except.ok 100⟩
      initState).1.currentFrameAtStartup = "24" := h.1.trans (by decide)
  exact ⟨e, by rw [← e]; exact h.2⟩

/-- C8: when the push fails with any failure kind, a warning carrying that
kind is surfaced, the push is attempted exactly once, the field text is
unchanged, and the resulting local state is identical to the one a
successful push would leave. -/
theorem commit_failure_leaves_state (s : State) (k : GatewayFailure) (n : Int)
    (h : pythonParseInt? s.currentFrameVar = some n) :
    Output.warnGateway k ∈ (on_go_to (some k) s).2 ∧
    countSetParam (on_go_to (some k) s).2 = 1 ∧
    (on_go_to (some k) s).1.currentFrameVar = s.currentFrameVar ∧
    (on_go_to (some k) s).1 = (on_go_to none s).1 := by
  have hv := is_valid_integer_of_parse h s.errorShown
  refine ⟨?_, ?_, ?_, ?_⟩
  · simp [on_go_to, h, hv]
  · simp [on_go_to, h, hv, countSetParam, List.filter, Output.isSetParam]
  · simp [on_go_to, h]
  · simp [on_go_to, h]

/-- C8 witness: at text "5" with an API failure, the warning carries the
kind and the field still reads "5". -/
theorem commit_failure_leaves_state_witness :
    Output.warnGateway GatewayFailure.apiFailure
      ∈ (on_go_to (some GatewayFailure.apiFailure) (State.mk "5" "" "" "" false)).2 ∧
    (on_go_to (some GatewayFailure.apiFailure)
      (State.mk "5" "" "" "" false)).1.currentFrameVar = "5" :=
  ⟨(commit_failure_leaves_state (State.mk "5" "" "" "" false)
      GatewayFailure.apiFailure 5 (by decide)).1,
   (commit_failure_leaves_state (State.mk "5" "" "" "" false)
      GatewayFailure.apiFailure 5 (by decide)).2.2.1⟩

/-- C9 counterexample: Python's `int(" 5")` succeeds, so the validator
accepts " 5" even though it is not an optionally signed base-10 numeral —
the claimed iff fails. -/
theorem validator_accepts_padded_text :
    (is_valid_integer false " 5").valid = true ∧ specSignedDecimal " 5" = false := by decide

/-- C9 (amended): for ASCII text the validator returns true iff the text,
after stripping surrounding whitespace, is an optional sign followed by a
nonempty digit run in which single underscores may stand between digits —
exactly the ASCII strings Python's `int` accepts in base 10.  The ASCII
restriction is essential to the characterization: on non-ASCII text
Python's `int` additionally accepts Unicode decimal digits and Unicode
whitespace (`int("٥") = 5`, `int("\xa05") = 5`), so no ASCII grammar
describes the full acceptance set. -/
theorem valid_iff_python_int_literal (flag : Bool) (t : String)
    (_hascii : ∀ c ∈ t.toList, c.toNat < 128) :
    (is_valid_integer flag t).valid = true ↔ PyIntText (pythonStrip t.toList) := by
  rw [valid_iff_parse]
  exact pythonParseInt?_isSome_iff t

/-- C9 witness: the ASCII string "1_0" is accepted. -/
theorem valid_iff_python_int_literal_witness :
    (is_valid_integer false "1_0").valid = true :=
  (valid_iff_python_int_literal false "1_0" (by decide)).mpr (by
    have h : pythonStrip "1_0".toList = ['1', '_', '0'] := by decide
    rw [h]
    have h2 : PyIntText ['1', '_', '0'] = DigitSeq ['1', '_', '0'] := by
      simp [PyIntText]
    rw [h2]
    exact ⟨'1', ['_', '0'], rfl, by decide, Tail.und (by decide) Tail.nil⟩)

/-- C10: committing valid text clears the suppression flag before the
push, so the flag is false afterwards whatever the push's outcome, and the
next invalid check will pop a fresh warning. -/
theorem commit_clears_suppression_flag (s : State) (n : Int)
    (h : pythonParseInt? s.currentFrameVar = some n) :
    ∀ gw : Option GatewayFailure,
      (on_go_to gw s).1.errorShown = false ∧
      ∀ t : String, (pythonParseInt? t).isSome = false →
        countWarnInvalid (is_valid_integer (on_go_to gw s).1.errorShown t).outs = 1 := by
  intro gw
  have hflag : (on_go_to gw s).1.errorShown = false := by
    cases gw <;> simp [on_go_to, h]
  refine ⟨hflag, ?_⟩
  intro t ht
  have hn : pythonParseInt? t = none := by
    cases hq : pythonParseInt? t with
    | none => rfl
    | some v => rw [hq] at ht; simp at ht
  rw [hflag, is_valid_integer_of_none hn false]
  simp [countWarnInvalid, List.filter, Output.isWarnInvalid]

/-- C10 witness: after committing "12" over a failing gateway the flag is
clear and the next invalid check at "abc" warns once. -/
theorem commit_clears_suppression_flag_witness :
    (on_go_to (some GatewayFailure.timeoutFailure)
      (State.mk "12" "" "" "" true)).1.errorShown = false ∧
    countWarnInvalid (is_valid_integer
      (on_go_to (some GatewayFailure.timeoutFailure)
        (State.mk "12" "" "" "" true)).1.errorShown "abc").outs = 1 :=
  ⟨(commit_clears_suppression_flag (State.mk "12" "" "" "" true) 12 (by decide)
      (some GatewayFailure.timeoutFailure)).1,
   (commit_clears_suppression_flag (State.mk "12" "" "" "" true) 12 (by decide)
      (some GatewayFailure.timeoutFailure)).2 "abc" (by decide)⟩
